import Mathlib

/-!
Shallow embedding of the variogram model catalog of PyKrige
(file pykrige/variogram_models.py).

Distances and model parameters are modelled as real numbers.  The helper
functions that derive parameter bounds and initial guesses from observed
data are modelled over the rationals, with an explicit IEEE-style
extended value type for their results, because the source produces
infinities and nans through division by a zero data range and through
the literal np.inf.  Reading the i-th entry of the parameter sequence m
is modelled with an optional list read, so that an out-of-range read
(a Python IndexError) is a none result; np.amax and np.amin are none on
the empty list, where numpy raises.
-/

/-- IEEE-style extended value: a finite rational, an infinity, or nan. -/
inductive FloatVal where
  | fin : ℚ → FloatVal
  | inf : FloatVal
  | neginf : FloatVal
  | nan : FloatVal
deriving DecidableEq

/-- True on finite values only. -/
def FloatVal.isFinite : FloatVal → Bool
  | .fin _ => true
  | _ => false

/-- Division of finite values, with the IEEE rules for a zero divisor:
a positive value over zero is inf, a negative one is neginf, and zero
over zero is nan. -/
def ieeeDiv (a b : ℚ) : FloatVal :=
  if b = 0 then
    if 0 < a then FloatVal.inf
    else if a < 0 then FloatVal.neginf
    else FloatVal.nan
  else FloatVal.fin (a / b)

/-- Maximum of two rationals, written so that it reduces in the kernel. -/
def qmax (a b : ℚ) : ℚ := if a ≤ b then b else a

/-- Minimum of two rationals, written so that it reduces in the kernel. -/
def qmin (a b : ℚ) : ℚ := if a ≤ b then a else b

/-- np.amax of a list; none on the empty list (numpy raises there). -/
def amax : List ℚ → Option ℚ
  | [] => none
  | x :: xs => some (xs.foldl qmax x)

/-- np.amin of a list; none on the empty list (numpy raises there). -/
def amin : List ℚ → Option ℚ
  | [] => none
  | x :: xs => some (xs.foldl qmin x)

/-- Bounds helper of the linear model:
([0, 0], [np.inf, np.amax(semivariance)]). -/
def linear_variogram_model_bnds (lags semivariance : List ℚ) :
    Option (List FloatVal × List FloatVal) := do
  let smax ← amax semivariance
  return ([FloatVal.fin 0, FloatVal.fin 0], [FloatVal.inf, FloatVal.fin smax])

/-- Initial-guess helper of the linear model:
[(amax(semivariance) - amin(semivariance)) / (amax(lags) - amin(lags)),
 amin(semivariance)]. -/
def linear_variogram_model_x0 (lags semivariance : List ℚ) :
    Option (List FloatVal) := do
  let smax ← amax semivariance
  let smin ← amin semivariance
  let lmax ← amax lags
  let lmin ← amin lags
  return [ieeeDiv (smax - smin) (lmax - lmin), FloatVal.fin smin]

/-- Bounds helper of the power model:
([0, 0.0001, 0], [np.inf, 1.999, np.amax(semivariance)]). -/
def power_variogram_model_bnds (lags semivariance : List ℚ) :
    Option (List FloatVal × List FloatVal) := do
  let smax ← amax semivariance
  return ([FloatVal.fin 0, FloatVal.fin (1/10000), FloatVal.fin 0],
          [FloatVal.inf, FloatVal.fin (1999/1000), FloatVal.fin smax])

/-- Initial-guess helper of the power model:
[(amax(semivariance) - amin(semivariance)) / (amax(lags) - amin(lags)),
 1.1, amin(semivariance)]. -/
def power_variogram_model_x0 (lags semivariance : List ℚ) :
    Option (List FloatVal) := do
  let smax ← amax semivariance
  let smin ← amin semivariance
  let lmax ← amax lags
  let lmin ← amin lags
  return [ieeeDiv (smax - smin) (lmax - lmin), FloatVal.fin (11/10),
          FloatVal.fin smin]

/-- Bounds helper of the gaussian model (shared by the exponential,
spherical and hole-effect models):
([0, 0, 0], [10*amax(semivariance), amax(lags), amax(semivariance)]). -/
def gaussian_variogram_model_bnds (lags semivariance : List ℚ) :
    Option (List FloatVal × List FloatVal) := do
  let smax ← amax semivariance
  let lmax ← amax lags
  return ([FloatVal.fin 0, FloatVal.fin 0, FloatVal.fin 0],
          [FloatVal.fin (10 * smax), FloatVal.fin lmax, FloatVal.fin smax])

/-- Initial-guess helper of the gaussian model (shared by the
exponential, spherical and hole-effect models):
[amax(semivariance) - amin(semivariance), 0.25*amax(lags),
 amin(semivariance)]. -/
def gaussian_variogram_model_x0 (lags semivariance : List ℚ) :
    Option (List FloatVal) := do
  let smax ← amax semivariance
  let smin ← amin semivariance
  let lmax ← amax lags
  return [FloatVal.fin (smax - smin), FloatVal.fin ((1/4) * lmax),
          FloatVal.fin smin]

/-- Bounds helper of the gamma-rayleigh nuggetless model: the fixed
literals ([0, 0, 0], [1000, 10, 10]), independent of the data. -/
def gamma_rayleigh_nuggetless_variogram_model_bnds
    (lags semivariance : List ℚ) :
    Option (List FloatVal × List FloatVal) :=
  some ([FloatVal.fin 0, FloatVal.fin 0, FloatVal.fin 0],
        [FloatVal.fin 1000, FloatVal.fin 10, FloatVal.fin 10])

/-- Initial-guess helper of the gamma-rayleigh nuggetless model: the
fixed literals [2.0, 0.01, 0.0001], independent of the data. -/
def gamma_rayleigh_nuggetless_variogram_model_x0
    (lags semivariance : List ℚ) :
    Option (List FloatVal) :=
  some [FloatVal.fin 2, FloatVal.fin (1/100), FloatVal.fin (1/10000)]

/-- Linear model, m is [slope, nugget]: slope * d + nugget. -/
noncomputable def linear_variogram_model (m : List ℝ) (d : ℝ) : Option ℝ := do
  let slope ← m[0]?
  let nugget ← m[1]?
  return slope * d + nugget

/-- Power model, m is [scale, exponent, nugget]:
scale * d ** exponent + nugget, with the real power for the float
power of the source. -/
noncomputable def power_variogram_model (m : List ℝ) (d : ℝ) : Option ℝ := do
  let scale ← m[0]?
  let exponent ← m[1]?
  let nugget ← m[2]?
  return scale * Real.rpow d exponent + nugget

/-- Gaussian model, m is [psill, range_, nugget]:
psill * (1 - exp(-d^2 / (range_*4/7)^2)) + nugget. -/
noncomputable def gaussian_variogram_model (m : List ℝ) (d : ℝ) : Option ℝ := do
  let psill ← m[0]?
  let range_ ← m[1]?
  let nugget ← m[2]?
  return psill * (1 - Real.exp (-(d ^ 2) / (range_ * 4 / 7) ^ 2)) + nugget

/-- Exponential model, m is [psill, range_, nugget]:
psill * (1 - exp(-d / (range_/3))) + nugget. -/
noncomputable def exponential_variogram_model (m : List ℝ) (d : ℝ) :
    Option ℝ := do
  let psill ← m[0]?
  let range_ ← m[1]?
  let nugget ← m[2]?
  return psill * (1 - Real.exp (-d / (range_ / 3))) + nugget

/-- Spherical model, m is [psill, range_, nugget].  np.piecewise with the
conditions [d <= range_, d > range_] applies, per distance point, the
first-branch formula where d <= range_ and the plateau psill + nugget
where d > range_; exactly one of the two conditions holds per point. -/
noncomputable def spherical_variogram_model (m : List ℝ) (d : ℝ) :
    Option ℝ := do
  let psill ← m[0]?
  let range_ ← m[1]?
  let nugget ← m[2]?
  return if d ≤ range_ then
    psill * ((3 * d) / (2 * range_) - d ^ 3 / (2 * range_ ^ 3)) + nugget
  else psill + nugget

/-- Hole Effect model, m is [psill, range_, nugget]:
psill * (1 - (1 - d/(range_/3)) * exp(-d/(range_/3))) + nugget. -/
noncomputable def hole_effect_variogram_model (m : List ℝ) (d : ℝ) :
    Option ℝ := do
  let psill ← m[0]?
  let range_ ← m[1]?
  let nugget ← m[2]?
  return psill * (1 - (1 - d / (range_ / 3)) * Real.exp (-d / (range_ / 3)))
    + nugget

/-- Gamma-Rayleigh nuggetless model, m is [sill, falloff, beta]:
with fd = falloff*d, omfd = 1 - falloff*d and bfd2 = beta*omfd*omfd,
the value is sill * fd * exp(omfd - bfd2). -/
noncomputable def gamma_rayleigh_nuggetless_variogram_model
    (m : List ℝ) (d : ℝ) : Option ℝ := do
  let sill ← m[0]?
  let falloff ← m[1]?
  let beta ← m[2]?
  let fd := falloff * d
  let omfd := 1 - falloff * d
  let bfd2 := beta * omfd * omfd
  return sill * fd * Real.exp (omfd - bfd2)

/-- Claim C8: on lags [1,2,3,4] and semivariance [0.5,1.0,1.5,2.0] the
linear initial-guess helper returns exactly [0.5, 0.5] (slope
(2.0-0.5)/(4-1), nugget min(semivariance)) and the linear bounds helper
returns exactly ([0,0],[inf,2.0]). -/
theorem linear_helper_example :
    linear_variogram_model_x0 [1, 2, 3, 4] [1/2, 1, 3/2, 2] =
      some [FloatVal.fin (1/2), FloatVal.fin (1/2)]
    ∧ linear_variogram_model_bnds [1, 2, 3, 4] [1/2, 1, 3/2, 2] =
      some ([FloatVal.fin 0, FloatVal.fin 0],
            [FloatVal.inf, FloatVal.fin 2]) := by
  constructor
  · norm_num [linear_variogram_model_x0, amax, amin, qmax, qmin, ieeeDiv]
  · norm_num [linear_variogram_model_bnds, amax, qmax]

lemma spherical_eval (psill range_ nugget d : ℝ) :
    spherical_variogram_model [psill, range_, nugget] d =
      some (if d ≤ range_ then
        psill * ((3 * d) / (2 * range_) - d ^ 3 / (2 * range_ ^ 3)) + nugget
      else psill + nugget) := by
  simp [spherical_variogram_model]

/-- Claim C1 (amended): for the spherical model, every distance point
with d <= range takes the first branch and yields
psill*((3d)/(2*range) - d^3/(2*range^3)) + nugget, every point with
d > range yields exactly psill + nugget, and the boundary point
d = range, which falls in the first branch, also yields the plateau
value psill + nugget provided range is nonzero (at range = 0 the
first-branch expression divides zero by zero). -/
theorem spherical_piecewise_eval (psill range_ nugget d : ℝ) :
    (d ≤ range_ → spherical_variogram_model [psill, range_, nugget] d =
      some (psill * ((3 * d) / (2 * range_) - d ^ 3 / (2 * range_ ^ 3))
        + nugget))
    ∧ (range_ < d → spherical_variogram_model [psill, range_, nugget] d =
      some (psill + nugget))
    ∧ (range_ ≠ 0 →
      spherical_variogram_model [psill, range_, nugget] range_ =
        some (psill + nugget)) := by
  refine ⟨fun h => ?_, fun h => ?_, fun h => ?_⟩
  · rw [spherical_eval, if_pos h]
  · rw [spherical_eval, if_neg (not_le.mpr h)]
  · rw [spherical_eval, if_pos le_rfl]
    have h1 : (3 * range_) / (2 * range_) = 3 / 2 := by
      rw [mul_div_mul_right _ _ h]
    have h2 : range_ ^ 3 / (2 * range_ ^ 3) = 1 / 2 := by
      rw [div_mul_eq_div_div_swap, div_self (pow_ne_zero 3 h)]
    rw [h1, h2]
    norm_num

/-- Claim C1, witness evaluation: with psill 2, range 4, nugget 1 the
three branches of the statement are exercised at d = 1, d = 5 and the
boundary d = 4. -/
theorem spherical_piecewise_eval_witness :
    spherical_variogram_model [2, 4, 1] 1 =
      some (2 * ((3 * 1) / (2 * 4) - 1 ^ 3 / (2 * 4 ^ 3)) + 1)
    ∧ spherical_variogram_model [2, 4, 1] 5 = some (2 + 1)
    ∧ spherical_variogram_model [2, 4, 1] 4 = some (2 + 1) := by
  obtain ⟨h1, h2, h3⟩ := spherical_piecewise_eval 2 4 1 1
  obtain ⟨h4, h5, h6⟩ := spherical_piecewise_eval 2 4 1 5
  exact ⟨h1 (by norm_num), h5 (by norm_num), h6 (by norm_num)⟩

/-- Claim C1, counterexample to the unamended boundary statement: at
psill 1, range 0, nugget 0 the boundary point d = range = 0 falls in the
first branch, whose expression divides zero by zero, and the value is
not the plateau psill + nugget = 1 (the source computes nan there, the
real-number model the junk value 0; on either reading the boundary does
not yield the plateau). -/
theorem spherical_boundary_counterexample :
    spherical_variogram_model [1, 0, 0] 0 = some 0
    ∧ spherical_variogram_model [1, 0, 0] 0 ≠ some 1 := by
  have h : spherical_variogram_model [1, 0, 0] 0 = some 0 := by
    rw [spherical_eval, if_pos le_rfl]
    norm_num
  refine ⟨h, ?_⟩
  rw [h]
  intro hc
  exact one_ne_zero (Option.some_injective ℝ hc).symm

/-- Claim C2 (amended): evaluate at distance 0 returns exactly the
nugget parameter for the linear model unconditionally; for the power
model when the exponent is positive (at exponent 0 the term 0**0 is 1,
so the result is scale + nugget, and at negative exponents the power of
zero is non-finite in the source); for the gaussian, exponential and
hole-effect models when the range is nonzero (at range 0 the source
divides zero by zero, producing nan); and for the spherical model when
the range is positive (at negative range the point 0 falls in the
d > range plateau branch, and at range 0 the source produces nan). -/
theorem eval_zero_nugget (slope scale exponent psill range_ nugget : ℝ) :
    linear_variogram_model [slope, nugget] 0 = some nugget
    ∧ (0 < exponent →
      power_variogram_model [scale, exponent, nugget] 0 = some nugget)
    ∧ (range_ ≠ 0 →
      gaussian_variogram_model [psill, range_, nugget] 0 = some nugget)
    ∧ (range_ ≠ 0 →
      exponential_variogram_model [psill, range_, nugget] 0 = some nugget)
    ∧ (0 < range_ →
      spherical_variogram_model [psill, range_, nugget] 0 = some nugget)
    ∧ (range_ ≠ 0 →
      hole_effect_variogram_model [psill, range_, nugget] 0 = some nugget) := by
  refine ⟨?_, fun he => ?_, fun hr => ?_, fun hr => ?_, fun hr => ?_,
    fun hr => ?_⟩
  · simp [linear_variogram_model]
  · simp [power_variogram_model, Real.zero_rpow he.ne']
  · simp [gaussian_variogram_model]
  · simp [exponential_variogram_model]
  · rw [spherical_eval, if_pos hr.le]
    norm_num
  · simp [hole_effect_variogram_model]

/-- Claim C2, witness evaluation: each conjunct at slope 2, scale 3,
exponent 1, psill 3, range 10, nugget 5, with the positivity and
nonzeroness side conditions discharged at those values. -/
theorem eval_zero_nugget_witness :
    linear_variogram_model [2, 5] 0 = some 5
    ∧ power_variogram_model [3, 1, 5] 0 = some 5
    ∧ gaussian_variogram_model [3, 10, 5] 0 = some 5
    ∧ exponential_variogram_model [3, 10, 5] 0 = some 5
    ∧ spherical_variogram_model [3, 10, 5] 0 = some 5
    ∧ hole_effect_variogram_model [3, 10, 5] 0 = some 5 := by
  obtain ⟨h1, h2, h3, h4, h5, h6⟩ := eval_zero_nugget 2 3 1 3 10 5
  exact ⟨h1, h2 (by norm_num), h3 (by norm_num), h4 (by norm_num),
    h5 (by norm_num), h6 (by norm_num)⟩

/-- Claim C2, counterexample to the unamended statement: the spherical
model with psill 1, range -1, nugget 0 evaluates at distance 0 to the
plateau 1 + 0 = 1, not the nugget 0, because the point 0 satisfies
d > range; and the power model with scale 1, exponent 0, nugget 0
evaluates at distance 0 to 1 * 0**0 + 0 = 1, not the nugget 0. -/
theorem eval_zero_nugget_counterexample :
    spherical_variogram_model [1, -1, 0] 0 = some 1
    ∧ spherical_variogram_model [1, -1, 0] 0 ≠ some 0
    ∧ power_variogram_model [1, 0, 0] 0 = some 1
    ∧ power_variogram_model [1, 0, 0] 0 ≠ some 0 := by
  have h1 : spherical_variogram_model [1, -1, 0] 0 = some 1 := by
    rw [spherical_eval, if_neg (by norm_num)]
    norm_num
  have h2 : power_variogram_model [1, 0, 0] 0 = some 1 := by
    simp [power_variogram_model, Real.rpow_zero]
  refine ⟨h1, ?_, h2, ?_⟩
  · rw [h1]
    intro hc
    exact one_ne_zero (Option.some_injective ℝ hc)
  · rw [h2]
    intro hc
    exact one_ne_zero (Option.some_injective ℝ hc)

/-- Claim C9: the gamma-rayleigh nuggetless model evaluates to exactly 0
at distance 0 for every sill, falloff and beta, since the factor
fd = falloff * 0 vanishes; this model has no nugget discontinuity at the
origin. -/
theorem gamma_rayleigh_zero_at_zero (sill falloff beta : ℝ) :
    gamma_rayleigh_nuggetless_variogram_model [sill, falloff, beta] 0 =
      some 0 := by
  simp [gamma_rayleigh_nuggetless_variogram_model]

/-- A Python function object: the function value together with its
__name__ attribute, which the descriptor constructor reads. -/
structure PyFunction (α : Type) where
  __name__ : String
  fn : α

/-- The variogram_model descriptor class: name (set from the evaluate
function's __name__), the evaluate function, and the optional
parameters, parameter_names, bnds and x0 attributes, all defaulting to
None in the source constructor. -/
structure variogram_model where
  name : String
  function : PyFunction (List ℝ → ℝ → Option ℝ)
  parameters : Option (List ℝ)
  parameter_names : Option (List String)
  bnds : Option (List ℚ → List ℚ → Option (List FloatVal × List FloatVal))
  x0 : Option (List ℚ → List ℚ → Option (List FloatVal))

/-- The source constructor: name is taken from function.__name__. -/
def variogram_model_init (function : PyFunction (List ℝ → ℝ → Option ℝ))
    (parameters : Option (List ℝ))
    (parameter_names : Option (List String))
    (bnds : Option (List ℚ → List ℚ → Option (List FloatVal × List FloatVal)))
    (x0 : Option (List ℚ → List ℚ → Option (List FloatVal))) :
    variogram_model :=
  ⟨function.__name__, function, parameters, parameter_names, bnds, x0⟩

/-- Python dict assignment on an insertion-ordered key-value list with
unique keys: an existing entry with the key is replaced in place,
otherwise the new entry is appended at the end. -/
def dict_set : List (String × variogram_model) → String → variogram_model →
    List (String × variogram_model)
  | [], k, v => [(k, v)]
  | p :: rest, k, v =>
    if p.1 = k then (k, v) :: rest else p :: dict_set rest k v

/-- Python dict lookup: the value stored under the key, or none (a
KeyError in the source) when the key is absent. -/
def dict_get : List (String × variogram_model) → String →
    Option variogram_model
  | [], _ => none
  | p :: rest, k => if p.1 = k then some p.2 else dict_get rest k

/-- variogram_models[model.name] = model. -/
def _add_model (reg : List (String × variogram_model))
    (model : variogram_model) : List (String × variogram_model) :=
  dict_set reg model.name model

/-- Descriptor registered for the linear model. -/
noncomputable def linear_model : variogram_model :=
  variogram_model_init ⟨"linear_variogram_model", linear_variogram_model⟩
    none (some ["slope", "nugget"])
    (some linear_variogram_model_bnds) (some linear_variogram_model_x0)

/-- Descriptor registered for the power model. -/
noncomputable def power_model : variogram_model :=
  variogram_model_init ⟨"power_variogram_model", power_variogram_model⟩
    none (some ["scale", "exponent", "nugget"])
    (some power_variogram_model_bnds) (some power_variogram_model_x0)

/-- Descriptor registered for the gaussian model. -/
noncomputable def gaussian_model : variogram_model :=
  variogram_model_init ⟨"gaussian_variogram_model", gaussian_variogram_model⟩
    none (some ["psill", "range_", "nugget"])
    (some gaussian_variogram_model_bnds) (some gaussian_variogram_model_x0)

/-- Descriptor registered for the exponential model; its bnds and x0 are
the gaussian model's helpers. -/
noncomputable def exponential_model : variogram_model :=
  variogram_model_init
    ⟨"exponential_variogram_model", exponential_variogram_model⟩
    none (some ["psill", "range_", "nugget"])
    (some gaussian_variogram_model_bnds) (some gaussian_variogram_model_x0)

/-- Descriptor registered for the spherical model; its bnds and x0 are
the gaussian model's helpers. -/
noncomputable def spherical_model : variogram_model :=
  variogram_model_init
    ⟨"spherical_variogram_model", spherical_variogram_model⟩
    none (some ["psill", "range_", "nugget"])
    (some gaussian_variogram_model_bnds) (some gaussian_variogram_model_x0)

/-- Descriptor registered for the hole-effect model; its bnds and x0 are
the gaussian model's helpers. -/
noncomputable def hole_effect_model : variogram_model :=
  variogram_model_init
    ⟨"hole_effect_variogram_model", hole_effect_variogram_model⟩
    none (some ["psill", "range_", "nugget"])
    (some gaussian_variogram_model_bnds) (some gaussian_variogram_model_x0)

/-- Descriptor registered for the gamma-rayleigh nuggetless model. -/
noncomputable def gamma_rayleigh_nuggetless_model : variogram_model :=
  variogram_model_init
    ⟨"gamma_rayleigh_nuggetless_variogram_model",
      gamma_rayleigh_nuggetless_variogram_model⟩
    none (some ["sill", "falloff", "beta"])
    (some gamma_rayleigh_nuggetless_variogram_model_bnds)
    (some gamma_rayleigh_nuggetless_variogram_model_x0)

/-- The module-level registry after the seven _add_model calls run in
source order at initialization. -/
noncomputable def variogram_models : List (String × variogram_model) :=
  _add_model (_add_model (_add_model (_add_model (_add_model (_add_model
    (_add_model [] linear_model) power_model) gaussian_model)
    exponential_model) spherical_model) hole_effect_model)
    gamma_rayleigh_nuggetless_model

lemma variogram_models_eq :
    variogram_models =
      [("linear_variogram_model", linear_model),
       ("power_variogram_model", power_model),
       ("gaussian_variogram_model", gaussian_model),
       ("exponential_variogram_model", exponential_model),
       ("spherical_variogram_model", spherical_model),
       ("hole_effect_variogram_model", hole_effect_model),
       ("gamma_rayleigh_nuggetless_variogram_model",
         gamma_rayleigh_nuggetless_model)] := by
  rfl

lemma dict_get_dict_set_self (reg : List (String × variogram_model))
    (k : String) (v : variogram_model) :
    dict_get (dict_set reg k v) k = some v := by
  induction reg with
  | nil => simp [dict_set, dict_get]
  | cons p rest ih =>
    by_cases hp : p.1 = k
    · simp [dict_set, dict_get, hp]
    · simpa [dict_set, dict_get, hp] using ih

lemma dict_get_dict_set_other (reg : List (String × variogram_model))
    (k : String) (v : variogram_model) (k2 : String) (h : k2 ≠ k) :
    dict_get (dict_set reg k v) k2 = dict_get reg k2 := by
  have hks : ¬ (k = k2) := fun hc => h hc.symm
  induction reg with
  | nil => simp [dict_set, dict_get, hks]
  | cons p rest ih =>
    by_cases hp : p.1 = k
    · have hpk : ¬ (p.1 = k2) := by
        rw [hp]
        exact hks
      simp [dict_set, dict_get, hp, hpk, hks]
    · by_cases hq : p.1 = k2
      · simp [dict_set, dict_get, hp, hq, h]
      · simpa [dict_set, dict_get, hp, hq] using ih

/-- Claim C3: registering a descriptor under a name already present
overwrites the previous entry, so looking that name up afterwards
returns the second descriptor and the first is unreachable; and
registering a descriptor leaves the lookup of every other key
unchanged. -/
theorem registry_overwrite (reg reg2 : List (String × variogram_model))
    (m1 m2 m : variogram_model) (k : String) :
    (m1.name = m2.name →
      dict_get (_add_model (_add_model reg m1) m2) m1.name = some m2)
    ∧ (k ≠ m.name → dict_get (_add_model reg2 m) k = dict_get reg2 k) := by
  constructor
  · intro h
    rw [h]
    exact dict_get_dict_set_self (_add_model reg m1) m2.name m2
  · intro h
    exact dict_get_dict_set_other reg2 m.name m k h

/-- Claim C3, witness evaluation: registering the linear descriptor
twice into the empty registry leaves a registry in which its name maps
to the second registered descriptor, and registering the linear
descriptor does not change the lookup of the key
"power_variogram_model". -/
theorem registry_overwrite_witness :
    dict_get (_add_model (_add_model [] linear_model) linear_model)
      linear_model.name = some linear_model
    ∧ dict_get (_add_model [] linear_model) "power_variogram_model" =
      dict_get [] "power_variogram_model" := by
  obtain ⟨h1, h2⟩ := registry_overwrite [] [] linear_model linear_model
    linear_model "power_variogram_model"
  exact ⟨h1 rfl, h2 (by simp [linear_model, variogram_model_init])⟩

/-- Claim C10: after initialization the registry holds exactly seven
entries, keyed by the full evaluate-function names (each descriptor's
name equals its key and equals its evaluate function's __name__), and
lookup by any of the short model names returns the not-found result. -/
theorem registry_keys_full_names :
    variogram_models.map Prod.fst =
      ["linear_variogram_model", "power_variogram_model",
       "gaussian_variogram_model", "exponential_variogram_model",
       "spherical_variogram_model", "hole_effect_variogram_model",
       "gamma_rayleigh_nuggetless_variogram_model"]
    ∧ variogram_models.length = 7
    ∧ variogram_models.all
        (fun p => p.2.name == p.1 && p.2.name == p.2.function.__name__) = true
    ∧ (["linear", "power", "gaussian", "exponential", "spherical",
        "hole_effect", "gamma_rayleigh_nuggetless"].all
        (fun s => (dict_get variogram_models s).isNone)) = true := by
  refine ⟨rfl, rfl, rfl, rfl⟩

/-- Claim C6: the exponential, spherical and hole-effect descriptors
register the gaussian model's bounds helper and initial-guess helper
verbatim — the registered attributes are literally the functions
gaussian_variogram_model_bnds and gaussian_variogram_model_x0 — so on
every lags and semivariance input their bounds and initial-guess
outputs coincide with the gaussian model's. -/
theorem shared_gaussian_helpers :
    exponential_model.bnds = some gaussian_variogram_model_bnds
    ∧ spherical_model.bnds = some gaussian_variogram_model_bnds
    ∧ hole_effect_model.bnds = some gaussian_variogram_model_bnds
    ∧ exponential_model.x0 = some gaussian_variogram_model_x0
    ∧ spherical_model.x0 = some gaussian_variogram_model_x0
    ∧ hole_effect_model.x0 = some gaussian_variogram_model_x0
    ∧ (∀ lags semivariance : List ℚ,
      exponential_model.bnds.map (fun f => f lags semivariance) =
        gaussian_model.bnds.map (fun f => f lags semivariance)
      ∧ spherical_model.bnds.map (fun f => f lags semivariance) =
        gaussian_model.bnds.map (fun f => f lags semivariance)
      ∧ hole_effect_model.bnds.map (fun f => f lags semivariance) =
        gaussian_model.bnds.map (fun f => f lags semivariance)
      ∧ exponential_model.x0.map (fun f => f lags semivariance) =
        gaussian_model.x0.map (fun f => f lags semivariance)
      ∧ spherical_model.x0.map (fun f => f lags semivariance) =
        gaussian_model.x0.map (fun f => f lags semivariance)
      ∧ hole_effect_model.x0.map (fun f => f lags semivariance) =
        gaussian_model.x0.map (fun f => f lags semivariance)) :=
  ⟨rfl, rfl, rfl, rfl, rfl, rfl,
    fun _ _ => ⟨rfl, rfl, rfl, rfl, rfl, rfl⟩⟩

lemma ieeeDiv_zero_not_finite (a : ℚ) :
    (ieeeDiv a 0).isFinite = false := by
  unfold ieeeDiv
  rw [if_pos rfl]
  split_ifs <;> rfl

lemma FloatVal.isFinite_fin (q : ℚ) : (FloatVal.fin q).isFinite = true := rfl

lemma linear_bnds_head_inf (lags s : List ℚ) (lo hi : List FloatVal)
    (h : linear_variogram_model_bnds lags s = some (lo, hi)) :
    hi.head? = some FloatVal.inf := by
  match s with
  | [] => simp [linear_variogram_model_bnds, amax] at h
  | b :: bs =>
    simp [linear_variogram_model_bnds, amax] at h
    obtain ⟨h1, h2⟩ := h
    subst h2
    rfl

lemma power_bnds_head_inf (lags s : List ℚ) (lo hi : List FloatVal)
    (h : power_variogram_model_bnds lags s = some (lo, hi)) :
    hi.head? = some FloatVal.inf := by
  match s with
  | [] => simp [power_variogram_model_bnds, amax] at h
  | b :: bs =>
    simp [power_variogram_model_bnds, amax] at h
    obtain ⟨h1, h2⟩ := h
    subst h2
    rfl

/-- Claim C7 (amended): the bounds and initial-guess helpers all
tolerate degenerate input without failing (each returns a value).
When the lag range is zero (all lags a single distinct value), the
initial-guess helpers of the linear and power models divide by zero and
return a non-finite first entry (inf or nan, following the sign of the
semivariance range), which is propagated to the caller unmasked, while
the remaining entries stay finite.  The helpers that perform no
division return only finite entries on the same degenerate input: the
gaussian-family initial-guess and bounds helpers and the two
gamma-rayleigh fixed-literal helpers — apart from the linear and power
bounds helpers' first upper entry, the constant np.inf, which is
present on every input, degenerate or not. -/
theorem degenerate_x0_nonfinite (lags semivariance : List ℚ)
    (h1 : lags ≠ []) (h2 : semivariance ≠ [])
    (h3 : amax lags = amin lags) :
    (linear_variogram_model_x0 lags semivariance).map
      (List.map FloatVal.isFinite) = some [false, true]
    ∧ (power_variogram_model_x0 lags semivariance).map
      (List.map FloatVal.isFinite) = some [false, true, true]
    ∧ (gaussian_variogram_model_x0 lags semivariance).map
      (List.map FloatVal.isFinite) = some [true, true, true]
    ∧ (linear_variogram_model_bnds lags semivariance).map
      (fun r => (r.1.map FloatVal.isFinite, r.2.map FloatVal.isFinite)) =
      some ([true, true], [false, true])
    ∧ (power_variogram_model_bnds lags semivariance).map
      (fun r => (r.1.map FloatVal.isFinite, r.2.map FloatVal.isFinite)) =
      some ([true, true, true], [false, true, true])
    ∧ (gaussian_variogram_model_bnds lags semivariance).map
      (fun r => (r.1.map FloatVal.isFinite, r.2.map FloatVal.isFinite)) =
      some ([true, true, true], [true, true, true])
    ∧ (gamma_rayleigh_nuggetless_variogram_model_bnds lags
        semivariance).map
      (fun r => (r.1.map FloatVal.isFinite, r.2.map FloatVal.isFinite)) =
      some ([true, true, true], [true, true, true])
    ∧ (gamma_rayleigh_nuggetless_variogram_model_x0 lags
        semivariance).map
      (List.map FloatVal.isFinite) = some [true, true, true]
    ∧ (∀ (lags2 s2 : List ℚ) (lo hi : List FloatVal),
        linear_variogram_model_bnds lags2 s2 = some (lo, hi) →
        hi.head? = some FloatVal.inf)
    ∧ (∀ (lags2 s2 : List ℚ) (lo hi : List FloatVal),
        power_variogram_model_bnds lags2 s2 = some (lo, hi) →
        hi.head? = some FloatVal.inf) := by
  match lags, semivariance with
  | a :: as, b :: bs =>
    have hden : as.foldl qmax a - as.foldl qmin a = 0 := by
      have h4 : as.foldl qmax a = as.foldl qmin a := by
        simpa [amax, amin] using h3
      rw [h4, sub_self]
    have hnf := ieeeDiv_zero_not_finite (bs.foldl qmax b - bs.foldl qmin b)
    refine ⟨?_, ?_, ?_, ?_, ?_, ?_, ?_, ?_, linear_bnds_head_inf,
      power_bnds_head_inf⟩
    · simp [linear_variogram_model_x0, amax, amin, hden, hnf,
        FloatVal.isFinite_fin]
    · simp [power_variogram_model_x0, amax, amin, hden, hnf,
        FloatVal.isFinite_fin]
    · simp [gaussian_variogram_model_x0, amax, amin, FloatVal.isFinite_fin]
    · simp [linear_variogram_model_bnds, amax, FloatVal.isFinite]
    · simp [power_variogram_model_bnds, amax, FloatVal.isFinite]
    · simp [gaussian_variogram_model_bnds, amax, FloatVal.isFinite]
    · simp [gamma_rayleigh_nuggetless_variogram_model_bnds,
        FloatVal.isFinite]
    · simp [gamma_rayleigh_nuggetless_variogram_model_x0,
        FloatVal.isFinite]

/-- Claim C7, witness evaluation: on the degenerate lags [1, 1] (a
single distinct value) with semivariance [2, 3], every helper returns a
value; the linear and power initial guesses start with a non-finite
entry, the other helper outputs are finite except the constant inf
upper bound of the linear and power bounds helpers. -/
theorem degenerate_x0_nonfinite_witness :
    (linear_variogram_model_x0 [1, 1] [2, 3]).map
      (List.map FloatVal.isFinite) = some [false, true]
    ∧ (power_variogram_model_x0 [1, 1] [2, 3]).map
      (List.map FloatVal.isFinite) = some [false, true, true]
    ∧ (gaussian_variogram_model_x0 [1, 1] [2, 3]).map
      (List.map FloatVal.isFinite) = some [true, true, true]
    ∧ (linear_variogram_model_bnds [1, 1] [2, 3]).map
      (fun r => (r.1.map FloatVal.isFinite, r.2.map FloatVal.isFinite)) =
      some ([true, true], [false, true])
    ∧ (power_variogram_model_bnds [1, 1] [2, 3]).map
      (fun r => (r.1.map FloatVal.isFinite, r.2.map FloatVal.isFinite)) =
      some ([true, true, true], [false, true, true])
    ∧ (gaussian_variogram_model_bnds [1, 1] [2, 3]).map
      (fun r => (r.1.map FloatVal.isFinite, r.2.map FloatVal.isFinite)) =
      some ([true, true, true], [true, true, true])
    ∧ (gamma_rayleigh_nuggetless_variogram_model_bnds [1, 1] [2, 3]).map
      (fun r => (r.1.map FloatVal.isFinite, r.2.map FloatVal.isFinite)) =
      some ([true, true, true], [true, true, true])
    ∧ (gamma_rayleigh_nuggetless_variogram_model_x0 [1, 1] [2, 3]).map
      (List.map FloatVal.isFinite) = some [true, true, true]
    ∧ (∀ (lags2 s2 : List ℚ) (lo hi : List FloatVal),
        linear_variogram_model_bnds lags2 s2 = some (lo, hi) →
        hi.head? = some FloatVal.inf)
    ∧ (∀ (lags2 s2 : List ℚ) (lo hi : List FloatVal),
        power_variogram_model_bnds lags2 s2 = some (lo, hi) →
        hi.head? = some FloatVal.inf) :=
  degenerate_x0_nonfinite [1, 1] [2, 3] (by simp) (by simp)
    (by simp [amax, amin, qmax, qmin])

/-- Claim C7, counterexample to the unamended statement: the
gaussian-family initial-guess helper (registered for the gaussian,
exponential, spherical and hole-effect models) performs no division, so
on the fully degenerate input lags [1, 1], semivariance [2, 2] it
returns [0, 0.25, 2] — every entry finite, no inf or nan produced. -/
theorem gaussian_x0_degenerate_finite_counterexample :
    gaussian_variogram_model_x0 [1, 1] [2, 2] =
      some [FloatVal.fin 0, FloatVal.fin (1/4), FloatVal.fin 2]
    ∧ (gaussian_variogram_model_x0 [1, 1] [2, 2]).map
      (List.map FloatVal.isFinite) = some [true, true, true] := by
  constructor
  · norm_num [gaussian_variogram_model_x0, amax, amin, qmax, qmin]
  · norm_num [gaussian_variogram_model_x0, amax, amin, qmax, qmin,
      FloatVal.isFinite]

lemma linear_arity (m : List ℝ) (d : ℝ) :
    (linear_variogram_model m d).isSome ↔ 2 ≤ m.length := by
  match m with
  | [] => simp [linear_variogram_model]
  | [a] => simp [linear_variogram_model]
  | a :: b :: t => simp [linear_variogram_model]

lemma power_arity (m : List ℝ) (d : ℝ) :
    (power_variogram_model m d).isSome ↔ 3 ≤ m.length := by
  match m with
  | [] => simp [power_variogram_model]
  | [a] => simp [power_variogram_model]
  | [a, b] => simp [power_variogram_model]
  | a :: b :: c :: t => simp [power_variogram_model]

lemma gaussian_arity (m : List ℝ) (d : ℝ) :
    (gaussian_variogram_model m d).isSome ↔ 3 ≤ m.length := by
  match m with
  | [] => simp [gaussian_variogram_model]
  | [a] => simp [gaussian_variogram_model]
  | [a, b] => simp [gaussian_variogram_model]
  | a :: b :: c :: t => simp [gaussian_variogram_model]

lemma exponential_arity (m : List ℝ) (d : ℝ) :
    (exponential_variogram_model m d).isSome ↔ 3 ≤ m.length := by
  match m with
  | [] => simp [exponential_variogram_model]
  | [a] => simp [exponential_variogram_model]
  | [a, b] => simp [exponential_variogram_model]
  | a :: b :: c :: t => simp [exponential_variogram_model]

lemma spherical_arity (m : List ℝ) (d : ℝ) :
    (spherical_variogram_model m d).isSome ↔ 3 ≤ m.length := by
  match m with
  | [] => simp [spherical_variogram_model]
  | [a] => simp [spherical_variogram_model]
  | [a, b] => simp [spherical_variogram_model]
  | a :: b :: c :: t => simp [spherical_variogram_model]

lemma hole_effect_arity (m : List ℝ) (d : ℝ) :
    (hole_effect_variogram_model m d).isSome ↔ 3 ≤ m.length := by
  match m with
  | [] => simp [hole_effect_variogram_model]
  | [a] => simp [hole_effect_variogram_model]
  | [a, b] => simp [hole_effect_variogram_model]
  | a :: b :: c :: t => simp [hole_effect_variogram_model]

lemma gamma_rayleigh_arity (m : List ℝ) (d : ℝ) :
    (gamma_rayleigh_nuggetless_variogram_model m d).isSome ↔
      3 ≤ m.length := by
  match m with
  | [] => simp [gamma_rayleigh_nuggetless_variogram_model]
  | [a] => simp [gamma_rayleigh_nuggetless_variogram_model]
  | [a, b] => simp [gamma_rayleigh_nuggetless_variogram_model]
  | a :: b :: c :: t => simp [gamma_rayleigh_nuggetless_variogram_model]

lemma linear_bnds_len (lags s : List ℚ) (lo hi : List FloatVal)
    (h : linear_variogram_model_bnds lags s = some (lo, hi)) :
    lo.length = 2 ∧ hi.length = 2 := by
  match s with
  | [] => simp [linear_variogram_model_bnds, amax] at h
  | b :: bs =>
    simp [linear_variogram_model_bnds, amax] at h
    obtain ⟨h1, h2⟩ := h
    subst h1
    subst h2
    exact ⟨rfl, rfl⟩

lemma linear_x0_len (lags s : List ℚ) (r : List FloatVal)
    (h : linear_variogram_model_x0 lags s = some r) : r.length = 2 := by
  match lags, s with
  | [], _ =>
    cases hs : amax s <;> cases hs2 : amin s <;>
      simp [linear_variogram_model_x0, hs, hs2, amax, amin] at h
  | _ :: _, [] => simp [linear_variogram_model_x0, amax, amin] at h
  | a :: as, b :: bs =>
    simp [linear_variogram_model_x0, amax, amin] at h
    subst h
    rfl

lemma power_bnds_len (lags s : List ℚ) (lo hi : List FloatVal)
    (h : power_variogram_model_bnds lags s = some (lo, hi)) :
    lo.length = 3 ∧ hi.length = 3 := by
  match s with
  | [] => simp [power_variogram_model_bnds, amax] at h
  | b :: bs =>
    simp [power_variogram_model_bnds, amax] at h
    obtain ⟨h1, h2⟩ := h
    subst h1
    subst h2
    exact ⟨rfl, rfl⟩

lemma power_x0_len (lags s : List ℚ) (r : List FloatVal)
    (h : power_variogram_model_x0 lags s = some r) : r.length = 3 := by
  match lags, s with
  | [], _ =>
    cases hs : amax s <;> cases hs2 : amin s <;>
      simp [power_variogram_model_x0, hs, hs2, amax, amin] at h
  | _ :: _, [] => simp [power_variogram_model_x0, amax, amin] at h
  | a :: as, b :: bs =>
    simp [power_variogram_model_x0, amax, amin] at h
    subst h
    rfl

lemma gaussian_bnds_len (lags s : List ℚ) (lo hi : List FloatVal)
    (h : gaussian_variogram_model_bnds lags s = some (lo, hi)) :
    lo.length = 3 ∧ hi.length = 3 := by
  match lags, s with
  | [], _ =>
    cases hs : amax s <;>
      simp [gaussian_variogram_model_bnds, hs, amax] at h
  | _ :: _, [] => simp [gaussian_variogram_model_bnds, amax] at h
  | a :: as, b :: bs =>
    simp [gaussian_variogram_model_bnds, amax] at h
    obtain ⟨h1, h2⟩ := h
    subst h1
    subst h2
    exact ⟨rfl, rfl⟩

lemma gaussian_x0_len (lags s : List ℚ) (r : List FloatVal)
    (h : gaussian_variogram_model_x0 lags s = some r) : r.length = 3 := by
  match lags, s with
  | [], _ =>
    cases hs : amax s <;> cases hs2 : amin s <;>
      simp [gaussian_variogram_model_x0, hs, hs2, amax, amin] at h
  | _ :: _, [] => simp [gaussian_variogram_model_x0, amax, amin] at h
  | a :: as, b :: bs =>
    simp [gaussian_variogram_model_x0, amax, amin] at h
    subst h
    rfl

lemma gamma_bnds_len (lags s : List ℚ) (lo hi : List FloatVal)
    (h : gamma_rayleigh_nuggetless_variogram_model_bnds lags s =
      some (lo, hi)) :
    lo.length = 3 ∧ hi.length = 3 := by
  simp [gamma_rayleigh_nuggetless_variogram_model_bnds] at h
  obtain ⟨h1, h2⟩ := h
  subst h1
  subst h2
  exact ⟨rfl, rfl⟩

lemma gamma_x0_len (lags s : List ℚ) (r : List FloatVal)
    (h : gamma_rayleigh_nuggetless_variogram_model_x0 lags s = some r) :
    r.length = 3 := by
  simp [gamma_rayleigh_nuggetless_variogram_model_x0] at h
  subst h
  rfl

/-- Claim C5: for every registered model, the length of its
parameter_names list equals the number of parameters its evaluate
function consumes — evaluation succeeds exactly when the parameter list
has at least that many entries, i.e. the highest index read plus one —
and equals the length of both sequences returned by its bounds helper
and the length of the sequence returned by its initial-guess helper,
which are present on every registered model. -/
theorem registry_param_count_consistent :
    ∀ p ∈ variogram_models, ∃ pn bndsf x0f,
      p.2.parameter_names = some pn
      ∧ p.2.bnds = some bndsf
      ∧ p.2.x0 = some x0f
      ∧ (∀ (m : List ℝ) (d : ℝ),
          (p.2.function.fn m d).isSome ↔ pn.length ≤ m.length)
      ∧ (∀ (lags s : List ℚ) (lo hi : List FloatVal),
          bndsf lags s = some (lo, hi) →
          lo.length = pn.length ∧ hi.length = pn.length)
      ∧ (∀ (lags s : List ℚ) (r : List FloatVal),
          x0f lags s = some r → r.length = pn.length) := by
  intro p hp
  rw [variogram_models_eq] at hp
  simp only [List.mem_cons, List.not_mem_nil, or_false] at hp
  rcases hp with rfl | rfl | rfl | rfl | rfl | rfl | rfl
  · exact ⟨["slope", "nugget"], _, _, rfl, rfl, rfl, linear_arity,
      linear_bnds_len, linear_x0_len⟩
  · exact ⟨["scale", "exponent", "nugget"], _, _, rfl, rfl, rfl,
      power_arity, power_bnds_len, power_x0_len⟩
  · exact ⟨["psill", "range_", "nugget"], _, _, rfl, rfl, rfl,
      gaussian_arity, gaussian_bnds_len, gaussian_x0_len⟩
  · exact ⟨["psill", "range_", "nugget"], _, _, rfl, rfl, rfl,
      exponential_arity, gaussian_bnds_len, gaussian_x0_len⟩
  · exact ⟨["psill", "range_", "nugget"], _, _, rfl, rfl, rfl,
      spherical_arity, gaussian_bnds_len, gaussian_x0_len⟩
  · exact ⟨["psill", "range_", "nugget"], _, _, rfl, rfl, rfl,
      hole_effect_arity, gaussian_bnds_len, gaussian_x0_len⟩
  · exact ⟨["sill", "falloff", "beta"], _, _, rfl, rfl, rfl,
      gamma_rayleigh_arity, gamma_bnds_len, gamma_x0_len⟩

/-- Claim C5, witness evaluation: the consistency statement
instantiated at the first registry entry, the linear model, whose
registry-membership hypothesis is discharged concretely. -/
theorem registry_param_count_witness :
    ∃ pn bndsf x0f,
      linear_model.parameter_names = some pn
      ∧ linear_model.bnds = some bndsf
      ∧ linear_model.x0 = some x0f
      ∧ (∀ (m : List ℝ) (d : ℝ),
          (linear_model.function.fn m d).isSome ↔ pn.length ≤ m.length)
      ∧ (∀ (lags s : List ℚ) (lo hi : List FloatVal),
          bndsf lags s = some (lo, hi) →
          lo.length = pn.length ∧ hi.length = pn.length)
      ∧ (∀ (lags s : List ℚ) (r : List FloatVal),
          x0f lags s = some r → r.length = pn.length) :=
  registry_param_count_consistent ("linear_variogram_model", linear_model)
    (by rw [variogram_models_eq]; exact List.mem_cons_self _ _)
